import Mathlib

/-!
Verification of the enrichment pipeline of `src/api/endpoints/scrapper.py`
(function `enrich_data`, lines 100-196, and its supporting pydantic models).

The embedding is shallow: Python values decoded from JSON are modelled by
the inductive `PyVal`; Python numbers are modelled by `ℚ` (ints and floats
collapsed, which preserves truthiness and exact arithmetic); dictionaries
are association lists with string keys, which is what `json.load` produces
at the only call site.  The two external NLP libraries (spaCy's `nlp()`
call and TextBlob's `sentiment.polarity`) are modelled by an oracle
structure `NlpLib`: each library call that the Python `try` block can see
fail is an `Except`-valued function.  In particular:

* `nlp(text_content)` (line 143) raises `TypeError` deterministically when
  its argument is not a `str`, and may fail on strings (e.g. spaCy's
  `max_length` check) — modelled by `NlpLib.run` plus the non-string guard
  in `processRecord`;
* `TextBlob(text_content).sentiment.polarity` (line 146) is an external
  call that may fail — modelled by `NlpLib.polarity`;
* `doc.ents` (line 157) is a plain attribute of the returned document,
  modelled as data carried by `SpacyDoc`;
* `doc.noun_chunks` (line 163) is a property that spaCy documents as
  raising `ValueError` when the dependency parse is unavailable — modelled
  as an `Except` field of `SpacyDoc`.

Crucially, the order of effects inside the `try` block is preserved:
`sentiment_scores.append(sentiment)` (line 147) happens after the spaCy
and TextBlob calls but before the entity/keyword extraction, so a failure
raised during keyword extraction leaves the score in the accumulator while
the item itself degrades to the zero-value fallback.
-/

/-- A decoded Python/JSON value, as handled by `enrich_data`. -/
inductive PyVal where
  | none
  | bool (b : Bool)
  | num (q : ℚ)
  | str (s : String)
  | list (xs : List PyVal)
  | dict (kvs : List (String × PyVal))

/-- Python truthiness for the values of `PyVal`: `None`, `False`, zero,
the empty string, the empty list and the empty dict are falsy. -/
def truthy : PyVal → Bool
  | .none => false
  | .bool b => b
  | .num q => q != 0
  | .str s => s != ""
  | .list xs => !xs.isEmpty
  | .dict kvs => !kvs.isEmpty

/-- Python's `item.get(k, '')` on a decoded dict (line 124-127): the value
stored at `k` when the key is present (even when that value is `None`),
the empty string otherwise. -/
def pyGet (item : List (String × PyVal)) (k : String) : PyVal :=
  match item.find? (fun kv => kv.1 == k) with
  | some kv => kv.2
  | Option.none => .str ""

/-- Python's short-circuiting `or`: the left operand if truthy, otherwise
the right operand. -/
def pyOr (a b : PyVal) : PyVal :=
  if truthy a then a else b

/-- The text-extraction fallback chain of lines 123-129:
`item.get('text','') or item.get('content','') or item.get('description','')
or item.get('title','') or ''`. -/
def textContent (item : List (String × PyVal)) : PyVal :=
  pyOr (pyGet item "text")
    (pyOr (pyGet item "content")
      (pyOr (pyGet item "description")
        (pyOr (pyGet item "title") (.str ""))))

/-- A named entity as reported by spaCy (lines 150-158): surface text,
label, and character offsets. -/
structure SpacyEnt where
  text : String
  label : String
  start_char : Nat
  end_char : Nat

/-- The result of a successful `nlp(text)` call.  `ents` is the plain
entity attribute; `noun_chunks` is the property access of line 163, which
spaCy documents as able to raise, hence the `Except`. -/
structure SpacyDoc where
  ents : List SpacyEnt
  noun_chunks : Except String (List String)

/-- The behaviour of the two external NLP libraries during one request:
`run` is spaCy's `nlp : str → Doc` (line 143) and `polarity` is
`TextBlob(·).sentiment.polarity` (line 146).  An `Except.error` models the
call raising an exception. -/
structure NlpLib where
  run : String → Except String SpacyDoc
  polarity : String → Except String ℚ

/-- Round half to even (Python's `round` tie-breaking rule). -/
def roundHalfEven (q : ℚ) : ℤ :=
  if q - q.floor < 1 / 2 then q.floor
  else if 1 / 2 < q - q.floor then q.floor + 1
  else if q.floor % 2 = 0 then q.floor else q.floor + 1

/-- Python's `round(x, 3)`: round to 3 decimal places, ties to even. -/
def round3 (q : ℚ) : ℚ :=
  (roundHalfEven (q * 1000) : ℚ) / 1000

/-- The keyword computation of lines 160-165 followed by the `[:10]`
truncation of line 171: keep chunk texts longer than 2 characters,
lowercase them, deduplicate (`list(set(...))` — one fixed order standing
in for CPython's unspecified set order), and take at most 10. -/
def keywordsFrom (chunks : List String) : List String :=
  (((chunks.filter fun t => 2 < t.length).map String.toLower).dedup).take 10

/-- The pydantic model `EnrichedItem` (lines 87-91). -/
structure EnrichedItem where
  original_item : List (String × PyVal)
  sentiment : ℚ
  entities : List SpacyEnt
  keywords : List String

/-- The pydantic model `EnrichedData` (lines 94-97). -/
structure EnrichedData where
  items : List EnrichedItem
  total_items : Nat
  average_sentiment : ℚ

/-- The zero-value fallback item built at lines 133-138 (empty text) and
lines 176-181 (caught analysis failure). -/
def zeroItem (item : List (String × PyVal)) : EnrichedItem :=
  ⟨item, 0, [], []⟩

/-- The body of the per-record loop (lines 122-181) for one dict element:
returns the appended `EnrichedItem` together with the contribution made to
`sentiment_scores` (`some s` exactly when line 147 executed).  The match
order mirrors the Python control flow: empty text short-circuits; a
non-`str` canonical text makes `nlp()` raise `TypeError` (caught); then the
spaCy call, then the TextBlob call, then — after the score is already
appended — the fallible `noun_chunks` access. -/
def processRecord (lib : NlpLib) (item : List (String × PyVal)) :
    EnrichedItem × Option ℚ :=
  if truthy (textContent item) then
    match textContent item with
    | .str s =>
      match lib.run s with
      | .error _ => (zeroItem item, Option.none)
      | .ok doc =>
        match lib.polarity s with
        | .error _ => (zeroItem item, Option.none)
        | .ok sentiment =>
          match doc.noun_chunks with
          | .error _ => (zeroItem item, some sentiment)
          | .ok chunks =>
            (⟨item, round3 sentiment, doc.ents, keywordsFrom chunks⟩,
              some sentiment)
    | _ => (zeroItem item, Option.none)
  else (zeroItem item, Option.none)

/-- The `for item in data` loop of lines 117-181: non-dict elements are
skipped (lines 118-120); each dict element appends exactly one item and
optionally one score, in input order. -/
def enrichLoop (lib : NlpLib) : List PyVal → List EnrichedItem × List ℚ
  | [] => ([], [])
  | v :: rest =>
    match v with
    | .dict item =>
      ((processRecord lib item).1 :: (enrichLoop lib rest).1,
        match (processRecord lib item).2 with
        | some s => s :: (enrichLoop lib rest).2
        | Option.none => (enrichLoop lib rest).2)
    | _ => enrichLoop lib rest

/-- The average-sentiment computation of lines 187-190:
`round(sum(scores)/len(scores), 3) if scores else 0.0`. -/
def avgSentiment (scores : List ℚ) : ℚ :=
  if scores.isEmpty then 0 else round3 (scores.sum / scores.length)

/-- The single fatal failure of the enrichment engine: the `ValueError`
raised at line 112 (the spec's `InvalidInputKind`). -/
inductive EnrichError where
  | invalidInput (msg : String)
deriving DecidableEq

/-- The function `enrich_data` (lines 100-196): reject non-list input,
run the per-record loop, then assemble the `EnrichedData` result with
`total_items = len(enriched_items)` and the rounded average. -/
def enrich_data (lib : NlpLib) (data : PyVal) : Except EnrichError EnrichedData :=
  match data with
  | .list xs =>
    .ok ⟨(enrichLoop lib xs).1, (enrichLoop lib xs).1.length,
      avgSentiment (enrichLoop lib xs).2⟩
  | _ => .error (.invalidInput "Scraped data must be a list of items")

/-- Dict payload of an element, used to state which input elements survive
the `isinstance(item, dict)` filter of line 118. -/
def dictEntries : PyVal → Option (List (String × PyVal))
  | .dict kvs => some kvs
  | _ => Option.none

/-- Whether a value is a dict. -/
def isDictVal : PyVal → Bool
  | .dict _ => true
  | _ => false

/-- Closed-form description of one element's contribution to the
`sentiment_scores` accumulator: a dict whose canonical text is a non-empty
string and whose spaCy and TextBlob calls both succeed contributes its
polarity; every other element contributes nothing.  (A failure in the
later `noun_chunks` access does not remove the already-appended score.) -/
def recordScore (lib : NlpLib) (v : PyVal) : Option ℚ :=
  match v with
  | .dict item =>
    match textContent item with
    | .str s =>
      if s == "" then Option.none
      else
        match lib.run s with
        | .ok _ => (lib.polarity s).toOption
        | .error _ => Option.none
    | _ => Option.none
  | _ => Option.none

/-- Modelled from the spec (§4.1 Record Normalizer): the spec's normalizer
checks `text`, `content`, `description`, `title` in order and returns the
first value that is non-empty, "treating absent/null/empty-string uniformly
as no value"; empty string if none found.  This definition follows the
spec's words and exists only to be compared with `textContent`, which is
translated from the code. -/
def specFieldValue (item : List (String × PyVal)) (k : String) : Option PyVal :=
  match (item.find? (fun kv => kv.1 == k)).map (fun kv => kv.2) with
  | Option.none => Option.none
  | some PyVal.none => Option.none
  | some (.str "") => Option.none
  | some v => some v

/-- Modelled from the spec (§4.1): the normalizer built from
`specFieldValue` over the fixed candidate key order. -/
def specNormalize (item : List (String × PyVal)) : PyVal :=
  match ["text", "content", "description", "title"].findSome?
      (specFieldValue item) with
  | some v => v
  | Option.none => .str ""

/-- Whether a value is a Python list (the `isinstance(data, list)` test of
line 110). -/
def isListVal : PyVal → Bool
  | .list _ => true
  | _ => false

/-- The normalizer the code actually implements, stated independently of
`pyOr` chaining: the first candidate key whose stored value is truthy
(any falsy value — absent key, `None`, `False`, zero, empty string, empty
list, empty dict — is treated as no value), else the empty string.  Used
to state the amended form of the C5 claim against `textContent`. -/
def truthyNormalize (item : List (String × PyVal)) : PyVal :=
  match ["text", "content", "description", "title"].findSome?
      (fun k => if truthy (pyGet item k) then some (pyGet item k)
                else Option.none) with
  | some v => v
  | Option.none => .str ""

/-- An analyzer oracle whose library calls all fail (e.g. the language
model cannot process any input). -/
def libDown : NlpLib :=
  ⟨fun _ => .error "unavailable", fun _ => .error "unavailable"⟩

/-- An analyzer oracle for which the spaCy call and the TextBlob call
succeed (polarity 1) but the later `doc.noun_chunks` property raises —
the documented spaCy `ValueError` (E029) when the dependency parse is
missing.  The `except` block of line 174 catches it, but only after
line 147 has already appended the sentiment score. -/
def libLateRaise : NlpLib :=
  ⟨fun _ => .ok ⟨[], .error "E029"⟩, fun _ => .ok 1⟩

/-- An analyzer oracle for which every call succeeds: polarity 1, no
entities, noun chunks `["the cat", "it"]`. -/
def libBasic : NlpLib :=
  ⟨fun _ => .ok ⟨[], .ok ["the cat", "it"]⟩, fun _ => .ok 1⟩

/-! Helper lemmas about the embedded code.  These are shared between the
claim theorems below. -/

/-- The `Rat.floor` used by `roundHalfEven` agrees with the Mathlib floor. -/
theorem ratFloor_eq_floor (q : ℚ) : q.floor = ⌊q⌋ := rfl

/-- Both fallback branches and both success branches of the loop body keep
the incoming record as `original_item`. -/
theorem processRecord_original (lib : NlpLib) (item : List (String × PyVal)) :
    (processRecord lib item).1.original_item = item := by
  unfold processRecord
  repeat' split
  all_goals rfl

/-- The contribution of one dict record to `sentiment_scores` is exactly
`recordScore`: present iff the canonical text is a non-empty string and
both the spaCy and the TextBlob calls succeed. -/
theorem processRecord_score (lib : NlpLib) (item : List (String × PyVal)) :
    (processRecord lib item).2 = recordScore lib (.dict item) := by
  unfold processRecord recordScore
  rcases h : textContent item with _ | b | q | s | xs | kvs <;>
    simp only [h, truthy]
  · rfl
  · cases b <;> rfl
  · split <;> rfl
  · by_cases hs : s = ""
    · subst hs; rfl
    · have hb : (s != "") = true := by simpa using hs
      have hbeq : (s == "") = false := by simpa using hs
      simp only [hb, if_true, hbeq, Bool.false_eq_true, if_false]
      rcases hr : lib.run s with e | doc
      · rfl
      · rcases hp : lib.polarity s with e | p
        · simp [hp, Except.toOption]
        · rcases hnc : doc.noun_chunks with e | chunks <;>
            simp [hp, hnc, Except.toOption]
  · split <;> rfl
  · split <;> rfl

/-- Non-dict elements have no effect: the loop computes the same result on
the input with them filtered out. -/
theorem enrichLoop_filter (lib : NlpLib) (xs : List PyVal) :
    enrichLoop lib xs = enrichLoop lib (xs.filter isDictVal) := by
  induction xs with
  | nil => rfl
  | cons v rest ih =>
    cases v <;> simp [enrichLoop, List.filter, isDictVal, ih]

/-- The produced items carry exactly the dict elements of the input, in
input order, as their untouched `original_item` payloads. -/
theorem enrichLoop_map_original (lib : NlpLib) (xs : List PyVal) :
    (enrichLoop lib xs).1.map (fun it => it.original_item)
      = xs.filterMap dictEntries := by
  induction xs with
  | nil => rfl
  | cons v rest ih =>
    cases v <;>
      simp [enrichLoop, List.filterMap, dictEntries, ih, processRecord_original]

/-- The `sentiment_scores` accumulator in closed form. -/
theorem enrichLoop_scores (lib : NlpLib) (xs : List PyVal) :
    (enrichLoop lib xs).2 = xs.filterMap (recordScore lib) := by
  induction xs with
  | nil => rfl
  | cons v rest ih =>
    cases v <;>
      simp only [enrichLoop, List.filterMap, recordScore, ih]
    case dict kvs =>
      rw [← recordScore, ← processRecord_score lib kvs]
      rcases (processRecord lib kvs).2 with _ | s <;> simp

/-- Lowering an uppercase ASCII letter adds 32 to its code point. -/
theorem charToLower_toNat (c : Char) (h : c.toNat ≥ 65 ∧ c.toNat ≤ 90) :
    (Char.toLower c).toNat = c.toNat + 32 := by
  simp only [Char.toLower, h, if_true]
  have hv : (c.toNat + 32).isValidChar := by left; omega
  rw [Char.ofNat, dif_pos hv]
  rfl

/-- A lowered character is never an uppercase ASCII letter. -/
theorem charToLower_not_upper (c : Char) :
    (Char.toLower c).toNat ≥ 65 ∧ (Char.toLower c).toNat ≤ 90 → False := by
  intro hc
  by_cases h : c.toNat ≥ 65 ∧ c.toNat ≤ 90
  · have := charToLower_toNat c h
    omega
  · have heq : Char.toLower c = c := by
      simp only [Char.toLower]
      rw [if_neg h]
    rw [heq] at hc
    exact h hc

/-- Character lowering is idempotent. -/
theorem charToLower_idem (c : Char) :
    Char.toLower (Char.toLower c) = Char.toLower c := by
  conv_lhs => rw [Char.toLower]
  rw [if_neg (charToLower_not_upper c)]

/-- Lowering a string preserves its length. -/
theorem toLower_length (s : String) : s.toLower.length = s.length := by
  rw [String.toLower, String.map_eq]
  show (s.data.map Char.toLower).length = s.data.length
  exact List.length_map _ _

/-- String lowering is idempotent. -/
theorem toLower_idem (s : String) : s.toLower.toLower = s.toLower := by
  rw [String.toLower, String.map_eq, String.toLower, String.map_eq]
  show String.mk ((s.data.map Char.toLower).map Char.toLower)
      = String.mk (s.data.map Char.toLower)
  rw [List.map_map]
  congr 1
  exact List.map_congr_left fun c _ => charToLower_idem c

/-- The keyword list built from any chunk list has at most 10 entries, no
duplicates, and only lowercase strings longer than 2 characters. -/
theorem keywordsFrom_spec (chunks : List String) :
    (keywordsFrom chunks).length ≤ 10 ∧ (keywordsFrom chunks).Nodup ∧
      ∀ kw ∈ keywordsFrom chunks, 2 < kw.length ∧ kw.toLower = kw := by
  refine ⟨?_, ?_, ?_⟩
  · unfold keywordsFrom
    simp [List.length_take]
  · exact (List.take_sublist _ _).nodup (List.nodup_dedup _)
  · intro kw hkw
    unfold keywordsFrom at hkw
    have h1 := List.mem_dedup.mp (List.mem_of_mem_take hkw)
    obtain ⟨t, ht, rfl⟩ := List.mem_map.mp h1
    have hmem := List.mem_filter.mp ht
    have hlen : 2 < t.length := by simpa using hmem.2
    exact ⟨by rw [toLower_length]; exact hlen, toLower_idem t⟩

/-- A record with empty canonical text takes the fallback branch of
lines 131-139: zero-value item, no score. -/
theorem processRecord_empty (lib : NlpLib) (item : List (String × PyVal))
    (h : textContent item = .str "") :
    processRecord lib item = (zeroItem item, Option.none) := by
  unfold processRecord
  rw [h]
  rfl

/-- A record whose canonical text is not a string makes the `nlp()` call
raise `TypeError`, caught at line 174: zero-value item, no score. -/
theorem processRecord_nonstr (lib : NlpLib) (item : List (String × PyVal))
    (hns : ∀ s, textContent item ≠ PyVal.str s) :
    processRecord lib item = (zeroItem item, Option.none) := by
  unfold processRecord
  rcases h : textContent item with _ | b | q | s | xs | kvs
  · rfl
  · cases b <;> rfl
  · split <;> rfl
  · exact absurd h (hns s)
  · split <;> rfl
  · split <;> rfl

/-- A failing spaCy call (line 143) is caught before the score append:
zero-value item, no score. -/
theorem processRecord_runFail (lib : NlpLib) (item : List (String × PyVal))
    (s : String) (e : String) (h : textContent item = .str s) (hs : s ≠ "")
    (hr : lib.run s = .error e) :
    processRecord lib item = (zeroItem item, Option.none) := by
  unfold processRecord
  rw [h]
  have ht : truthy (.str s) = true := by simpa [truthy] using hs
  rw [ht]
  simp only [if_true, hr]

/-- A failing TextBlob call (line 146) is caught before the score append:
zero-value item, no score. -/
theorem processRecord_polFail (lib : NlpLib) (item : List (String × PyVal))
    (s : String) (d : SpacyDoc) (e : String) (h : textContent item = .str s)
    (hs : s ≠ "") (hr : lib.run s = .ok d) (hp : lib.polarity s = .error e) :
    processRecord lib item = (zeroItem item, Option.none) := by
  unfold processRecord
  rw [h]
  have ht : truthy (.str s) = true := by simpa [truthy] using hs
  rw [ht]
  simp only [if_true, hr, hp]

/-- A `noun_chunks` failure (line 163) is caught only after line 147 has
appended the score: the item degrades to zero but the score stays. -/
theorem processRecord_chunksFail (lib : NlpLib) (item : List (String × PyVal))
    (s : String) (d : SpacyDoc) (p : ℚ) (e : String)
    (h : textContent item = .str s) (hs : s ≠ "") (hr : lib.run s = .ok d)
    (hp : lib.polarity s = .ok p) (hc : d.noun_chunks = .error e) :
    processRecord lib item = (zeroItem item, some p) := by
  unfold processRecord
  rw [h]
  have ht : truthy (.str s) = true := by simpa [truthy] using hs
  rw [ht]
  simp only [if_true, hr, hp, hc]

/-- A fully successful analysis produces the enriched item of
lines 167-172 and appends its score. -/
theorem processRecord_full (lib : NlpLib) (item : List (String × PyVal))
    (s : String) (d : SpacyDoc) (p : ℚ) (chunks : List String)
    (h : textContent item = .str s) (hs : s ≠ "") (hr : lib.run s = .ok d)
    (hp : lib.polarity s = .ok p) (hc : d.noun_chunks = .ok chunks) :
    processRecord lib item
      = (⟨item, round3 p, d.ents, keywordsFrom chunks⟩, some p) := by
  unfold processRecord
  rw [h]
  have ht : truthy (.str s) = true := by simpa [truthy] using hs
  rw [ht]
  simp only [if_true, hr, hp, hc]

/-- Every keyword list the loop body can produce is empty or the image of
some chunk list under `keywordsFrom`. -/
theorem processRecord_keywords (lib : NlpLib) (item : List (String × PyVal)) :
    (processRecord lib item).1.keywords = []
      ∨ ∃ chunks, (processRecord lib item).1.keywords = keywordsFrom chunks := by
  unfold processRecord
  repeat' split
  all_goals first
    | exact Or.inl rfl
    | exact Or.inr ⟨_, rfl⟩

/-- Every item produced by the loop has an empty keyword list or one of
the shape `keywordsFrom chunks`. -/
theorem mem_enrichLoop_keywords (lib : NlpLib) (xs : List PyVal)
    (it : EnrichedItem) (hit : it ∈ (enrichLoop lib xs).1) :
    it.keywords = [] ∨ ∃ chunks, it.keywords = keywordsFrom chunks := by
  induction xs with
  | nil => simp [enrichLoop] at hit
  | cons v rest ih =>
    cases v <;> simp only [enrichLoop] at hit <;> try (exact ih hit)
    case dict kvs =>
      rcases List.mem_cons.mp hit with heq | hmem
      · subst heq
        exact processRecord_keywords lib kvs
      · exact ih hmem

/-- The code normalizer `textContent` agrees with `truthyNormalize`. -/
theorem textContent_eq_truthyNormalize (item : List (String × PyVal)) :
    textContent item = truthyNormalize item := by
  unfold textContent truthyNormalize pyOr
  simp only [List.findSome?]
  by_cases h1 : truthy (pyGet item "text") <;>
    simp only [h1, if_true, Bool.false_eq_true, if_false] <;>
  try (by_cases h2 : truthy (pyGet item "content") <;>
    simp only [h2, if_true, Bool.false_eq_true, if_false]) <;>
  try (by_cases h3 : truthy (pyGet item "description") <;>
    simp only [h3, if_true, Bool.false_eq_true, if_false]) <;>
  try (by_cases h4 : truthy (pyGet item "title") <;>
    simp only [h4, if_true, Bool.false_eq_true, if_false])

/-! Claim theorems. -/

/-- C1, counterexample.  The claim says a record whose analysis step raises
a failure never shifts `average_sentiment`.  With the oracle
`libLateRaise` — spaCy and TextBlob succeed (polarity 1) but the
`doc.noun_chunks` access raises, so the record degrades to the zero-value
item — the single-record batch `[{"text": "hello"}]` yields an item whose
displayed sentiment is 0 while `average_sentiment` is 1, not 0: the score
appended at line 147 stays in the accumulator although the analysis step
failed. -/
theorem claim_C1_counterexample :
    (enrich_data libLateRaise
        (.list [.dict [("text", .str "hello")]])).toOption.map
      (fun d => (d.items.map (fun it => it.sentiment), d.average_sentiment))
      = some ([0], 1) ∧ (1 : ℚ) ≠ 0 := by
  have havg : avgSentiment [1] = 1 := by
    unfold avgSentiment
    norm_num
    unfold round3 roundHalfEven
    rw [ratFloor_eq_floor]
    norm_num
  have h : enrich_data libLateRaise (.list [.dict [("text", .str "hello")]])
      = .ok ⟨[zeroItem [("text", .str "hello")]], 1, avgSentiment [1]⟩ := rfl
  refine ⟨?_, by norm_num⟩
  rw [h, havg]
  rfl

/-- C1, amended.  A record whose analysis fails during the spaCy call or
during the sentiment computation (that is, before line 147 appends the
score) contributes a displayed sentiment of 0.0 and nothing to the
average-sentiment accumulator; but a record whose analysis fails after the
append (during the keyword extraction of line 163) still degrades to the
zero-value item while its sentiment score remains in the accumulator, so
such a failure can shift `average_sentiment`. -/
theorem claim_C1 (lib : NlpLib) (item : List (String × PyVal)) (s : String)
    (h : textContent item = .str s) (hs : s ≠ "") :
    (∀ e, lib.run s = .error e →
        processRecord lib item = (zeroItem item, Option.none)) ∧
    (∀ d e, lib.run s = .ok d → lib.polarity s = .error e →
        processRecord lib item = (zeroItem item, Option.none)) ∧
    (∀ d p e, lib.run s = .ok d → lib.polarity s = .ok p →
        d.noun_chunks = .error e →
        processRecord lib item = (zeroItem item, some p)) :=
  ⟨fun e he => processRecord_runFail lib item s e h hs he,
   fun d e hd he => processRecord_polFail lib item s d e h hs hd he,
   fun d p e hd hp he => processRecord_chunksFail lib item s d p e h hs hd hp he⟩

/-- C1, witness: the third branch of the amended claim at a concrete
record and oracle — the item degrades to zero but the score 1 is kept. -/
theorem claim_C1_witness :
    processRecord libLateRaise [("text", PyVal.str "hello")]
      = (zeroItem [("text", PyVal.str "hello")], some 1) :=
  (claim_C1 libLateRaise [("text", PyVal.str "hello")] "hello" rfl
      (by decide)).2.2 ⟨[], Except.error "E029"⟩ 1 "E029" rfl rfl rfl

/-- C2: any non-list input makes `enrich_data` fail with the
`InvalidInputKind` error (the `ValueError` of line 112), for every oracle;
no result — hence no item and no accumulated state — is produced. -/
theorem claim_C2 (lib : NlpLib) (v : PyVal) (h : isListVal v = false) :
    enrich_data lib v
      = .error (.invalidInput "Scraped data must be a list of items") := by
  cases v <;> simp_all [isListVal, enrich_data]

/-- C2, witness: the number 3 is rejected. -/
theorem claim_C2_witness :
    enrich_data libDown (.num 3)
      = .error (.invalidInput "Scraped data must be a list of items") :=
  claim_C2 libDown (.num 3) rfl

/-- C3: every dict element of a list input yields exactly one item, in
input order (the produced `original_item` sequence is exactly the input
dict sequence), non-dict elements yield nothing and have no effect on the
rest of the processing (the loop result is unchanged by filtering them
out), and they are excluded from `total_items`. -/
theorem claim_C3 (lib : NlpLib) (xs : List PyVal) :
    enrichLoop lib xs = enrichLoop lib (xs.filter isDictVal) ∧
    (enrichLoop lib xs).1.map (fun it => it.original_item)
      = xs.filterMap dictEntries ∧
    (enrich_data lib (.list xs)).toOption.map (fun d => d.total_items)
      = some ((xs.filterMap dictEntries).length) := by
  refine ⟨enrichLoop_filter lib xs, enrichLoop_map_original lib xs, ?_⟩
  simp only [enrich_data, Except.toOption, Option.map]
  rw [← enrichLoop_map_original lib xs, List.length_map]

/-- C4: whenever `enrich_data` succeeds, the returned batch satisfies
`total_items = length items` (line 194 computes it that way). -/
theorem claim_C4 (lib : NlpLib) (v : PyVal) (d : EnrichedData)
    (h : enrich_data lib v = .ok d) : d.total_items = d.items.length := by
  cases v <;> simp only [enrich_data] at h
  case list xs =>
    cases h
    rfl
  all_goals cases h

/-- C4, witness: the invariant at the result of a one-record batch. -/
theorem claim_C4_witness :
    (⟨[zeroItem []], 1, 0⟩ : EnrichedData).total_items
      = (⟨[zeroItem []], 1, 0⟩ : EnrichedData).items.length :=
  claim_C4 libDown (.list [.dict []]) _ rfl

/-- C5, counterexample.  The claim treats only an absent key, a null value
and an empty string as "no value".  On the record
`{"text": 0, "content": "x"}` the code returns `"x"` — the `or` chain of
lines 123-129 skips the falsy number 0 stored under the highest-priority
key — while the claim as stated (formalised by `specNormalize`) selects
that 0, since 0 is none of absent, null or empty string. -/
theorem claim_C5_counterexample :
    textContent [("text", PyVal.num 0), ("content", PyVal.str "x")]
        = PyVal.str "x" ∧
    specNormalize [("text", PyVal.num 0), ("content", PyVal.str "x")]
        = PyVal.num 0 ∧
    PyVal.str "x" ≠ PyVal.num 0 :=
  ⟨rfl, rfl, fun h => nomatch h⟩

/-- C5, amended: the normalizer returns the value of the highest-priority
candidate key among `text`, `content`, `description`, `title` whose value
is truthy, treating every falsy value (absent key, null, false, zero,
empty string, empty list, empty dict) uniformly as no value; the empty
string if no candidate key has a truthy value.  It is a pure function of
the record. -/
theorem claim_C5 (item : List (String × PyVal)) :
    textContent item = truthyNormalize item :=
  textContent_eq_truthyNormalize item

/-- C6: a record whose canonical text is empty yields the zero-value item
(sentiment 0, no entities, no keywords) and contributes nothing to the
accumulator, for every oracle; in particular the batch
`[{"text": ""}, {"foo": "bar"}]` yields two zero-value items,
`total_items = 2` and `average_sentiment = 0`. -/
theorem claim_C6 (lib : NlpLib) (item : List (String × PyVal))
    (h : textContent item = .str "") :
    processRecord lib item = (zeroItem item, Option.none) ∧
    enrich_data lib
        (.list [.dict [("text", .str "")], .dict [("foo", .str "bar")]])
      = .ok ⟨[zeroItem [("text", .str "")], zeroItem [("foo", .str "bar")]],
          2, 0⟩ :=
  ⟨processRecord_empty lib item h, rfl⟩

/-- C6, witness: a record with no candidate text field. -/
theorem claim_C6_witness :
    processRecord libDown [("id", PyVal.num 7)]
        = (zeroItem [("id", PyVal.num 7)], Option.none) ∧
    enrich_data libDown
        (.list [.dict [("text", .str "")], .dict [("foo", .str "bar")]])
      = .ok ⟨[zeroItem [("text", .str "")], zeroItem [("foo", .str "bar")]],
          2, 0⟩ :=
  claim_C6 libDown [("id", PyVal.num 7)] rfl

/-- C7: every keyword list in a successful result has at most 10 entries,
no duplicates, and only lowercase strings longer than 2 characters (the
strings are lowercased noun-chunk texts; ordering beyond the truncation is
the fixed order the embedding gives to the set semantics). -/
theorem claim_C7 (lib : NlpLib) (v : PyVal) (d : EnrichedData)
    (h : enrich_data lib v = .ok d) (it : EnrichedItem) (hit : it ∈ d.items) :
    it.keywords.length ≤ 10 ∧ it.keywords.Nodup ∧
      ∀ kw ∈ it.keywords, 2 < kw.length ∧ kw.toLower = kw := by
  cases v <;> simp only [enrich_data] at h
  case list xs =>
    cases h
    rcases mem_enrichLoop_keywords lib xs it hit with hk | ⟨chunks, hk⟩
    · simp [hk]
    · rw [hk]
      exact keywordsFrom_spec chunks
  all_goals cases h

/-- C7, witness: the single item of a one-record batch under `libBasic`
(noun chunks "the cat" and "it"; the latter is dropped by the length
filter). -/
theorem claim_C7_witness :
    (⟨[("text", PyVal.str "a cat")], round3 1, [],
        keywordsFrom ["the cat", "it"]⟩ : EnrichedItem).keywords.length ≤ 10 ∧
    (⟨[("text", PyVal.str "a cat")], round3 1, [],
        keywordsFrom ["the cat", "it"]⟩ : EnrichedItem).keywords.Nodup ∧
    ∀ kw ∈ (⟨[("text", PyVal.str "a cat")], round3 1, [],
        keywordsFrom ["the cat", "it"]⟩ : EnrichedItem).keywords,
      2 < kw.length ∧ kw.toLower = kw :=
  claim_C7 libBasic (.list [.dict [("text", PyVal.str "a cat")]])
    ⟨[⟨[("text", PyVal.str "a cat")], round3 1, [],
        keywordsFrom ["the cat", "it"]⟩], 1,
      avgSentiment [1]⟩ rfl
    ⟨[("text", PyVal.str "a cat")], round3 1, [],
        keywordsFrom ["the cat", "it"]⟩ (List.Mem.head _)

/-- C8: the accumulator is exactly the `recordScore` contributions of the
input elements, `average_sentiment` is their mean rounded to 3 decimals
(0 when the accumulator is empty), and on the batch
`[{"text": "I love this!"}, {"text": "I hate this!"}]` — with the oracle
succeeding on both texts with polarities p1 and p2 — it equals
`round3 ((p1 + p2) / 2)`. -/
theorem claim_C8 (lib : NlpLib) (xs : List PyVal) (d1 d2 : SpacyDoc)
    (c1 c2 : List String) (p1 p2 : ℚ)
    (h1r : lib.run "I love this!" = .ok d1) (h1c : d1.noun_chunks = .ok c1)
    (h1p : lib.polarity "I love this!" = .ok p1)
    (h2r : lib.run "I hate this!" = .ok d2) (h2c : d2.noun_chunks = .ok c2)
    (h2p : lib.polarity "I hate this!" = .ok p2) :
    (enrichLoop lib xs).2 = xs.filterMap (recordScore lib) ∧
    (enrich_data lib (.list xs)).toOption.map (fun d => d.average_sentiment)
      = some (if xs.filterMap (recordScore lib) = [] then 0
          else round3 ((xs.filterMap (recordScore lib)).sum
            / ((xs.filterMap (recordScore lib)).length : ℚ))) ∧
    (enrich_data lib (.list [.dict [("text", .str "I love this!")],
        .dict [("text", .str "I hate this!")]])).toOption.map
        (fun d => d.average_sentiment)
      = some (round3 ((p1 + p2) / 2)) := by
  refine ⟨enrichLoop_scores lib xs, ?_, ?_⟩
  · simp only [enrich_data, Except.toOption, Option.map]
    rw [enrichLoop_scores]
    unfold avgSentiment
    rcases hxe : xs.filterMap (recordScore lib) with _ | ⟨a, rest⟩ <;> simp
  · have e1 : processRecord lib [("text", PyVal.str "I love this!")]
        = (⟨[("text", PyVal.str "I love this!")], round3 p1, d1.ents,
            keywordsFrom c1⟩, some p1) :=
      processRecord_full lib _ "I love this!" d1 p1 c1 rfl (by decide) h1r h1p h1c
    have e2 : processRecord lib [("text", PyVal.str "I hate this!")]
        = (⟨[("text", PyVal.str "I hate this!")], round3 p2, d2.ents,
            keywordsFrom c2⟩, some p2) :=
      processRecord_full lib _ "I hate this!" d2 p2 c2 rfl (by decide) h2r h2p h2c
    simp only [enrich_data, enrichLoop, e1, e2, Except.toOption, Option.map]
    unfold avgSentiment
    norm_num

/-- C8, witness: the general part at the empty batch and the scenario at
`libBasic`, whose polarity is 1 for every text. -/
theorem claim_C8_witness :
    (enrichLoop libBasic ([] : List PyVal)).2
        = ([] : List PyVal).filterMap (recordScore libBasic) ∧
    (enrich_data libBasic (.list [])).toOption.map
        (fun d => d.average_sentiment)
      = some (if ([] : List PyVal).filterMap (recordScore libBasic) = [] then 0
          else round3 ((([] : List PyVal).filterMap (recordScore libBasic)).sum
            / ((([] : List PyVal).filterMap (recordScore libBasic)).length : ℚ))) ∧
    (enrich_data libBasic (.list [.dict [("text", .str "I love this!")],
        .dict [("text", .str "I hate this!")]])).toOption.map
        (fun d => d.average_sentiment)
      = some (round3 ((1 + 1) / 2)) :=
  claim_C8 libBasic [] ⟨[], .ok ["the cat", "it"]⟩ ⟨[], .ok ["the cat", "it"]⟩
    ["the cat", "it"] ["the cat", "it"] 1 1 rfl rfl rfl rfl rfl rfl

/-- C9: for every list input and every oracle, the `original_item` fields
of the produced items are exactly the input dict records, unchanged and in
order, regardless of whether each analysis succeeded, failed, or was
skipped for empty text; the embedding is pure, so input records are never
mutated. -/
theorem claim_C9 (lib : NlpLib) (xs : List PyVal) :
    (enrich_data lib (.list xs)).toOption.map
        (fun d => d.items.map (fun it => it.original_item))
      = some (xs.filterMap dictEntries) := by
  simp only [enrich_data, Except.toOption, Option.map]
  rw [enrichLoop_map_original]

/-- C10: a record whose canonical text is truthy but not a string (so the
`nlp()` call raises `TypeError`) degrades to the zero-value item with no
accumulator contribution, and the call still returns normally: a one-record
batch of it yields a successful result with one zero-value item and
average 0. -/
theorem claim_C10 (lib : NlpLib) (item : List (String × PyVal))
    (htru : truthy (textContent item) = true)
    (hns : ∀ s, textContent item ≠ PyVal.str s) :
    processRecord lib item = (zeroItem item, Option.none) ∧
    enrich_data lib (.list [.dict item]) = .ok ⟨[zeroItem item], 1, 0⟩ := by
  have hz := processRecord_nonstr lib item hns
  refine ⟨hz, ?_⟩
  simp only [enrich_data, enrichLoop, hz]
  rfl

/-- C10, witness: the record `{"text": 5}`, whose canonical text is the
truthy non-string number 5. -/
theorem claim_C10_witness :
    processRecord libBasic [("text", PyVal.num 5)]
        = (zeroItem [("text", PyVal.num 5)], Option.none) ∧
    enrich_data libBasic (.list [.dict [("text", PyVal.num 5)]])
      = .ok ⟨[zeroItem [("text", PyVal.num 5)]], 1, 0⟩ :=
  claim_C10 libBasic [("text", PyVal.num 5)]
    (by show ((5 : ℚ) != 0) = true; norm_num)
    (fun s h => by
      rw [show textContent [("text", PyVal.num 5)] = PyVal.num 5 from rfl] at h
      cases h)
